import Mathlib

/-!
Verification model of the company-research-agent repository.

The development shallowly embeds the Python sources:
* `researchers/multi_source_researcher.py` (orchestrator, name resolution,
  LLM prompt construction),
* `third_party_api/apollo_organization_api.py` and
  `third_party_api/coresignal_multisource_api.py` (provider clients with
  on-disk caching),
* `search_engines/tavily_search.py` (web-search provider, uncached),
* `api/company_research_fastapi.py` (delivery pipeline / response shaping).

Provider payloads are modelled as typed views holding exactly the fields the
code reads, plus an opaque `rest` component standing for every other key of
the dynamic dict.  Python string operations (`str.replace`, `str.title`,
slicing) are modelled by structurally recursive functions so that all
definitions evaluate inside the kernel.  Similarity scores (JSON numbers) are
modelled as rationals.
-/

deriving instance DecidableEq for Except

/-! ## Python string primitives -/

/-- Fuel-driven core of Python `str.replace`: scans left to right, replacing
non-overlapping occurrences of `patt` by `repl`.  The fuel is the length of
the scanned list, which suffices because each step consumes at least one
character. -/
def pyReplaceFuel (patt repl : List Char) : Nat → List Char → List Char
  | _, [] => []
  | 0, s => s
  | Nat.succ n, c :: cs =>
    if !patt.isEmpty && patt.isPrefixOf (c :: cs) then
      repl ++ pyReplaceFuel patt repl n (List.drop (patt.length - 1) cs)
    else
      c :: pyReplaceFuel patt repl n cs

/-- Model of Python `s.replace(patt, repl)` for a non-empty pattern. -/
def pyReplace (s patt repl : String) : String :=
  String.mk (pyReplaceFuel patt.data repl.data s.data.length s.data)

/-- Core of Python `str.title`: a letter is uppercased when the previous
character is not a letter, lowercased otherwise; non-letters pass through. -/
def pyTitleAux : Bool → List Char → List Char
  | _, [] => []
  | prevAlpha, c :: cs =>
    (if c.isAlpha then (if prevAlpha then c.toLower else c.toUpper) else c)
      :: pyTitleAux c.isAlpha cs

/-- Model of Python `s.title()` (ASCII-cased, as used on domain names). -/
def pyTitle (s : String) : String :=
  String.mk (pyTitleAux false s.data)

/-- Model of Python string slicing `s[:n]`. -/
def pySlice (s : String) (n : Nat) : String :=
  String.mk (s.data.take n)

/-- Python truthiness of an optional string: `None` and `""` are falsy.
Returns the string exactly when it is present and non-empty. -/
def truthyStr : Option String → Option String
  | none => none
  | some s => if s = "" then none else some s

/-! ## Provider payload views

Typed views of the dynamic dict payloads: each structure holds the fields the
Python code reads by name, plus `rest` for all remaining key/value pairs. -/

/-- One entry of a CoreSignal `competitors` list.  The code reads only
`similarity_score` (a JSON number, modelled as a rational); every other field
is opaque. -/
structure Competitor where
  cname : String
  similarity_score : Option ℚ
  rest : List (String × String) := []
deriving DecidableEq, Repr

/-- One entry of a CoreSignal `company_updates` list. -/
structure CompanyUpdate where
  date : Option String := none
  description : Option String := none
  reactions_count : Option Nat := none
  comments_count : Option Nat := none
deriving DecidableEq, Repr

/-- Typed view of a CoreSignal multi-source payload. -/
structure CoresignalData where
  company_name : Option String := none
  company_updates : List CompanyUpdate := []
  competitors : List Competitor := []
  rest : List (String × String) := []
deriving DecidableEq, Repr

/-- Typed view of an Apollo enrichment payload: `organization.name` and the
top-level `name`, plus the opaque remainder. -/
structure ApolloData where
  organizationName : Option String := none
  name : Option String := none
  rest : List (String × String) := []
deriving DecidableEq, Repr

/-- Pydantic `TavilySearchResult` from `search_engines/tavily_search.py`. -/
structure TavilySearchResult where
  url : String
  title : String
  score : ℚ
  published_date : Option String := none
  content : Option String := none
deriving DecidableEq, Repr

/-! ## Canonical company-name resolution
(`MultiSourceResearcher.company_name` / `_set_company_name_from_data`) -/

/-- Model of `_set_company_name_from_data`: the value `_company_name` holds
afterwards (`none` = left unset).  Mirrors the Python `if/elif` chain with
its truthiness tests. -/
def setCompanyNameFromData (apollo_data : Option ApolloData)
    (coresignal_data : Option CoresignalData) : Option String :=
  match apollo_data.bind (fun a => truthyStr a.organizationName) with
  | some n => some n
  | none =>
    match coresignal_data.bind (fun c => truthyStr c.company_name) with
    | some n => some n
    | none => apollo_data.bind (fun a => truthyStr a.name)

/-- Fallback display name: `domain.replace(".com", "").replace("www.", "").title()`. -/
def fallbackDisplayName (domain : String) : String :=
  pyTitle (pyReplace (pyReplace domain ".com" "") "www." "")

/-- Model of the `company_name` property: the stored name when set, else the
fallback derived from the domain. -/
def companyNameProp (domain : String) : Option String → String
  | none => fallbackDisplayName domain
  | some n => n

/-- Canonical name after `_set_company_name_from_data` has run on the two
payloads, as read through the `company_name` property. -/
def resolvedCompanyName (domain : String) (apollo_data : ApolloData)
    (coresignal_data : CoresignalData) : String :=
  companyNameProp domain (setCompanyNameFromData (some apollo_data) (some coresignal_data))

/-- Written from the spec sentence for the refinement check: "first
enrichment-provider organization name, else multi-source-provider company
name, else a second enrichment-provider field, else the fallback display name
derived from the identifier" — a field counting as present when it carries a
non-empty string. -/
def specCanonicalName (domain : String) (apollo_data : ApolloData)
    (coresignal_data : CoresignalData) : String :=
  match truthyStr apollo_data.organizationName,
        truthyStr coresignal_data.company_name,
        truthyStr apollo_data.name with
  | some n, _, _ => n
  | none, some n, _ => n
  | none, none, some n => n
  | none, none, none => fallbackDisplayName domain

/-! ## Competitor sorting and news truncation (prompt construction) -/

/-- Sort key of `competitors.sort(key=lambda x: x.get("similarity_score") or 0, ...)`:
a missing score counts as zero. -/
def competitorKey (c : Competitor) : ℚ :=
  c.similarity_score.getD 0

/-- Insert `c` into a descending-sorted list, before every element of
strictly smaller key and after every element of greater-or-equal key.  Used
right-to-left this reproduces a stable descending sort: an element is placed
before equal-key elements that came later in the original list. -/
def insertDesc {α : Type} (key : α → ℚ) (c : α) : List α → List α
  | [] => [c]
  | x :: xs => if key c < key x then x :: insertDesc key c xs else c :: x :: xs

/-- Stable sort by descending key (insertion sort), the semantics of Python
`list.sort(key=..., reverse=True)`. -/
def insertionSortDesc {α : Type} (key : α → ℚ) : List α → List α
  | [] => []
  | c :: cs => insertDesc key c (insertionSortDesc key cs)

/-- Model of the in-place `competitors.sort(key=..., reverse=True)`: a stable
sort by descending similarity key. -/
def pySortDescCompetitors (l : List Competitor) : List Competitor :=
  insertionSortDesc competitorKey l

/-- Python truthiness of an optional count: `None` and `0` are falsy. -/
def truthyNat : Option Nat → Option Nat
  | none => none
  | some n => if n = 0 then none else some n

/-- One formatted news item (shared shape of the two report builders, with the
500-character description budget of the LLM paths). -/
def newsItemStr (i : Nat) (u : CompanyUpdate) : String :=
  "### News Item " ++ toString i ++ "\n" ++
  "**Date:** " ++ u.date.getD "No Date" ++ "  \n" ++
  "**Summary:** " ++ pySlice (u.description.getD "No description available") 500 ++
    (if 500 < (u.description.getD "").data.length then "..." else "") ++ "  \n" ++
  (match truthyNat u.reactions_count with
   | some r => "**Engagement:** " ++ toString r ++ " reactions"
   | none => "") ++
  (match truthyNat u.comments_count with
   | some c => ", " ++ toString c ++ " comments"
   | none => "") ++ "\n\n"

/-- The `news` string: the three most recent company updates formatted, or a
placeholder when the list is empty. -/
def buildNews (company_updates : List CompanyUpdate) : String :=
  if company_updates.isEmpty then "No recent news items found.\n\n"
  else String.join ((company_updates.take 3).enum.map (fun p => newsItemStr (p.1 + 1) p.2))

/-! ## LLM prompts

The prompt handed to the completion model is represented structurally: one
field per datum interpolated into the Python f-string. -/

/-- Data interpolated into the `generate_llm_company_report` prompt of
`multi_source_researcher.py`: the company name, the (sorted) CoreSignal
payload dumped in full, the Apollo payload dumped in full, and the Tavily
customer results.  The locals `news`, `all_company_updates` and the truncated
`competitors` list are computed by the code but not interpolated into this
f-string. -/
structure MultiSourcePrompt where
  company_name : String
  coresignal_payload : CoresignalData
  apollo_payload : ApolloData
  customers : List TavilySearchResult
deriving DecidableEq, Repr

/-- Model of `MultiSourceResearcher.generate_llm_company_report`.  Returns the
report text, the CoreSignal payload as it stands after the in-place
`competitors.sort` mutation, and the prompt that was sent. -/
def generateLlmCompanyReport (llm : MultiSourcePrompt → String) (company_name : String)
    (apollo_data : ApolloData) (coresignal_data : CoresignalData)
    (customers : List TavilySearchResult) : String × CoresignalData × MultiSourcePrompt :=
  let news := buildNews coresignal_data.company_updates
  let all_company_updates := coresignal_data.company_updates.map (fun u => u.description.getD "")
  let coresignal_sorted :=
    { coresignal_data with competitors := pySortDescCompetitors coresignal_data.competitors }
  let competitors := coresignal_sorted.competitors.take 5
  let prompt : MultiSourcePrompt := ⟨company_name, coresignal_sorted, apollo_data, customers⟩
  (llm prompt, coresignal_sorted, prompt)

/-- Data interpolated into the `generate_markdown_report_with_llm` prompt of
`coresignal_multisource_api.py`: website, schema text, formatted news, the
top-5 sorted competitor list, all update descriptions, and the full (sorted)
payload dumped as JSON. -/
structure CoresignalPrompt where
  website : String
  schema : String
  news : String
  competitors : List Competitor
  all_company_updates : List String
  coresignal_payload : CoresignalData
deriving DecidableEq, Repr

/-- Model of `CoreSignalMultiSourceAPI.generate_markdown_report_with_llm`.
Returns the report text, the payload after the in-place sort, and the prompt. -/
def generateMarkdownReportWithLlm (llm : CoresignalPrompt → String)
    (website schema : String) (api_response : CoresignalData) :
    String × CoresignalData × CoresignalPrompt :=
  let news := buildNews api_response.company_updates
  let all_company_updates := api_response.company_updates.map (fun u => u.description.getD "")
  let api_sorted :=
    { api_response with competitors := pySortDescCompetitors api_response.competitors }
  let competitors := api_sorted.competitors.take 5
  let prompt : CoresignalPrompt := ⟨website, schema, news, competitors, all_company_updates, api_sorted⟩
  (llm prompt, api_sorted, prompt)

/-! ## Research orchestrator (`MultiSourceResearcher.research_company`) -/

/-- Model of `asyncio.gather(apollo_task, tavily_task, coresignal_task)`
without `return_exceptions`: all three must succeed, otherwise the failing
task's error propagates (with a single failing task the choice is that task's
error). -/
def gather3 {ε α β γ : Type} (a : Except ε α) (b : Except ε β) (c : Except ε γ) :
    Except ε (α × β × γ) :=
  match a with
  | .error e => .error e
  | .ok x =>
    match b with
    | .error e => .error e
    | .ok y =>
      match c with
      | .error e => .error e
      | .ok z => .ok (x, y, z)

/-- The dict returned by `research_company`. -/
structure ResearchBundle where
  company_name : String
  domain : String
  report : String
  apollo_data : ApolloData
  tavily_customers : List TavilySearchResult
  coresignal_data : CoresignalData
deriving DecidableEq, Repr

/-- Observable outcome of one `research_company` run: its result, whether the
LLM synthesis call was made, and the query string handed to the Tavily
customer search. -/
structure ResearchTrace (ε : Type) where
  result : Except ε ResearchBundle
  synthesisCalled : Bool
  tavilyQuery : String
deriving DecidableEq, Repr

/-- Query built by `get_major_customers_async`. -/
def customersQuery (company_name : String) : String :=
  "Who are the major/enterprise customers of " ++ company_name ++ "?"

/-- The query `fetch_tavily_data` hands to the customer search: it reads
`self.company_name` while `_company_name` is still `None` (the name is set
only after the gather join), so the fallback display name is used. -/
def researchQuery (domain : String) : String :=
  customersQuery (companyNameProp domain none)

/-- Model of `MultiSourceResearcher.research_company`.  The three provider
fetches are passed as their outcomes; the Tavily fetch is a function of the
query because the code builds the query from `self.company_name`, which at
fetch time is still unset (`_company_name is None`, so the property yields
the domain-derived fallback).  The name is resolved from the payloads only
after the `gather` join, then the report is synthesized and the bundle
assembled — with the CoreSignal payload as mutated by the in-place sort. -/
def researchCompany {ε : Type} (domain : String)
    (apolloFetch : Except ε ApolloData)
    (tavilyFetch : String → Except ε (List TavilySearchResult))
    (coresignalFetch : Except ε CoresignalData)
    (llm : MultiSourcePrompt → String) : ResearchTrace ε :=
  match gather3 apolloFetch (tavilyFetch (researchQuery domain)) coresignalFetch with
  | .error e => ⟨.error e, false, researchQuery domain⟩
  | .ok (apollo_data, customers, coresignal_data) =>
    let nm := companyNameProp domain (setCompanyNameFromData (some apollo_data) (some coresignal_data))
    let r := generateLlmCompanyReport llm nm apollo_data coresignal_data customers
    ⟨.ok ⟨nm, domain, r.1, apollo_data, customers, r.2.1⟩, true, researchQuery domain⟩

/-! ## Provider clients with on-disk caching -/

/-- Failure mode of a provider HTTP fetch. -/
inductive FetchError where
  | httpStatus (status : Nat)
  | malformedBody
deriving DecidableEq, Repr

/-- An upstream HTTP response: status code plus the outcome of parsing the
body as JSON (`.error` = `response.json()` raises). -/
structure HttpResponse (α : Type) where
  status : Nat
  body : Except Unit α
deriving DecidableEq, Repr

/-- Outcome of one client fetch: the returned value or error, whether the
network was used, and the cache file afterwards (`none` = absent,
`some (.error ())` = present but unreadable/invalid JSON, `some (.ok v)` =
valid cached payload). -/
structure FetchOutcome (α : Type) where
  result : Except FetchError α
  networkCalled : Bool
  cacheAfter : Option (Except Unit α)
deriving DecidableEq, Repr

/-- Model of `ApolloOrganizationAPI.organization_enrichment_api`: a readable
cache file short-circuits the network; an unreadable or missing cache falls
through to one HTTP GET whose JSON body is returned and cached regardless of
the HTTP status code (the code never checks `response.status_code`); only a
body that fails to parse raises. -/
def apolloOrganizationEnrichment {α : Type} (cache : Option (Except Unit α))
    (http : HttpResponse α) : FetchOutcome α :=
  match cache with
  | some (.ok v) => ⟨.ok v, false, cache⟩
  | _ =>
    match http.body with
    | .ok v => ⟨.ok v, true, some (.ok v)⟩
    | .error _ => ⟨.error .malformedBody, true, cache⟩

/-- Model of `CoreSignalMultiSourceAPI.company_multi_source_enrich`: same
cache discipline, but `response.raise_for_status()` turns any 4xx/5xx status
into an error before the body is parsed or the cache written. -/
def coresignalMultiSourceEnrich {α : Type} (cache : Option (Except Unit α))
    (http : HttpResponse α) : FetchOutcome α :=
  match cache with
  | some (.ok v) => ⟨.ok v, false, cache⟩
  | _ =>
    if 400 ≤ http.status then ⟨.error (.httpStatus http.status), true, cache⟩
    else
      match http.body with
      | .ok v => ⟨.ok v, true, some (.ok v)⟩
      | .error _ => ⟨.error .malformedBody, true, cache⟩

/-- Outcome of one Tavily search call. -/
structure TavilyFetchOutcome where
  query : String
  results : List TavilySearchResult
  networkCalled : Bool
deriving DecidableEq, Repr

/-- Model of `get_major_customers_async` in `tavily_search.py`: builds the
query, always performs the network search (the function has no cache), and
keeps the truthy entries of `response.get("results", [])`. -/
def getMajorCustomersAsync (company_name : String)
    (searchResults : List (Option TavilySearchResult)) : TavilyFetchOutcome :=
  { query := customersQuery company_name
    results := searchResults.reduceOption
    networkCalled := true }

/-! ## Delivery pipeline and response shaping
(`multi_source_research_endpoint` in `company_research_fastapi.py`; the
delivery tail of `coresignal_generate_pdf_report` is line-for-line the same
branching on `request.email`, `drive_result` and `email_result`). -/

/-- The fields of the dict returned by `GoogleDriveUploader.upload_file`. -/
structure DriveFileMeta where
  id : Option String := none
  fname : Option String := none
  webViewLink : Option String := none
  size : Option String := none
deriving DecidableEq, Repr

/-- The `drive_result` dict recorded per upload attempt. -/
structure DriveOutcome where
  success : Bool
  file_id : Option String := none
  file_name : Option String := none
  view_link : Option String := none
  size : Option String := none
  error : Option String := none
deriving DecidableEq, Repr

/-- The `email_result` dict recorded per send attempt. -/
structure EmailOutcome where
  success : Bool
  error : Option String := none
deriving DecidableEq, Repr

/-- Process-level capability flags observed by the handler. -/
structure ServiceEnv where
  google_drive_available : Bool
  email_service_available : Bool
  email_configured : Bool
deriving DecidableEq, Repr

/-- Model of the Google-Drive block of the handler: `drive_result` is `none`
when no upload was requested; otherwise a failure record when the uploader is
unavailable or no folder id is set; otherwise the outcome of the upload call
(`.ok none` = the uploader returned `None`, `.error` = it raised). -/
def computeDriveResult (upload_to_drive google_drive_available : Bool)
    (upload_to_drive_folder_id : Option String)
    (uploadAttempt : Except String (Option DriveFileMeta)) : Option DriveOutcome :=
  if !upload_to_drive then none
  else if !google_drive_available then
    some { success := false
           error := some "Google Drive uploader not available. Check drive_uploader_complete.py" }
  else
    match truthyStr upload_to_drive_folder_id with
    | none => some { success := false, error := some "Google Drive upload folder ID is not set" }
    | some _ =>
      match uploadAttempt with
      | .ok (some m) =>
        some { success := true, file_id := m.id, file_name := m.fname
               view_link := m.webViewLink, size := m.size }
      | .ok none =>
        some { success := false
               error := some "Upload failed - no result returned from Google Drive" }
      | .error e => some { success := false, error := some e }

/-- Model of the email block of the handler: `email_result` stays `none` when
no (truthy) address was supplied or the service module is unavailable;
otherwise construction failure, the not-configured record, or the outcome of
`send_pdf_report` (with exceptions folded into a failure record). -/
def computeEmailResult (email : Option String) (email_service_available : Bool)
    (construction : Except String Unit) (email_configured : Bool)
    (sendAttempt : Except String EmailOutcome) : Option EmailOutcome :=
  match truthyStr email with
  | none => none
  | some _ =>
    if !email_service_available then none
    else
      match construction with
      | .error e => some { success := false, error := some ("Email error: " ++ e) }
      | .ok _ =>
        if !email_configured then
          some { success := false, error := some "Email service not configured" }
        else
          match sendAttempt with
          | .ok r => some r
          | .error e => some { success := false, error := some ("Email error: " ++ e) }

/-- Python `email_result.get("success", False) if email_result else False`. -/
def emailSuccessOf : Option EmailOutcome → Bool
  | some r => r.success
  | none => false

/-- Python `drive_result and drive_result.get("success")`. -/
def driveSuccessOf : Option DriveOutcome → Bool
  | some r => r.success
  | none => false

/-- The JSON body assembled by the handler (fields absent in a branch are
`none` / `false`). -/
structure JsonSummary where
  message : String
  company_name : String
  pdf_filename : String
  email_sent : Option Bool := none
  google_drive : Option DriveOutcome := none
  email_result : Option EmailOutcome := none
  raw_data_included : Bool := false
deriving DecidableEq, Repr

/-- Shape of the HTTP response: a JSON summary or a streamed PDF file
(with the optional `X-Drive-Upload-Error` header). -/
inductive ApiResponse where
  | json (summary : JsonSummary)
  | fileStream (path : String) (filename : String) (driveUploadErrorHeader : Option String)
deriving DecidableEq, Repr

/-- Model of the response-shaping tail of `multi_source_research_endpoint`:
returns the response together with whether the rendered PDF was deleted
(`os.unlink(pdf_path)`) before responding. -/
def multiSourceDelivery (email : Option String) (return_data : Bool)
    (company_name pdf_filename pdf_path : String)
    (drive_result : Option DriveOutcome) (email_result : Option EmailOutcome) :
    ApiResponse × Bool :=
  match truthyStr email with
  | some _ =>
    (.json { message := "Multi-source research completed and PDF generated successfully"
             company_name := company_name
             pdf_filename := pdf_filename
             email_sent := some (emailSuccessOf email_result)
             google_drive := drive_result
             email_result := email_result
             raw_data_included := return_data },
     emailSuccessOf email_result || driveSuccessOf drive_result)
  | none =>
    if driveSuccessOf drive_result then
      (.json { message := "Multi-source research completed and PDF uploaded to Google Drive successfully"
               company_name := company_name
               pdf_filename := pdf_filename
               google_drive := drive_result
               raw_data_included := return_data },
       true)
    else
      (.fileStream pdf_path pdf_filename
        (drive_result.bind (fun d => if d.success then none else some (d.error.getD "Unknown error"))),
       false)

/-- End-to-end delivery model of the handler after the PDF has been rendered:
compute the two sink outcomes, then shape the response. -/
def multiSourceEndpointDelivery (email : Option String) (return_data upload_to_drive : Bool)
    (upload_to_drive_folder_id : Option String) (env : ServiceEnv)
    (uploadAttempt : Except String (Option DriveFileMeta))
    (emailConstruction : Except String Unit) (sendAttempt : Except String EmailOutcome)
    (company_name pdf_filename pdf_path : String) : ApiResponse × Bool :=
  let drive_result := computeDriveResult upload_to_drive env.google_drive_available
    upload_to_drive_folder_id uploadAttempt
  let email_result := computeEmailResult email env.email_service_available
    emailConstruction env.email_configured sendAttempt
  multiSourceDelivery email return_data company_name pdf_filename pdf_path drive_result email_result

/-- Example payload data: eight competitors with pairwise-distinct similarity
scores, listed out of order. -/
def eightCompetitors : List Competitor :=
  [⟨"c3", some 3, []⟩, ⟨"c7", some 7, []⟩, ⟨"c1", some 1, []⟩, ⟨"c8", some 8, []⟩,
   ⟨"c5", some 5, []⟩, ⟨"c2", some 2, []⟩, ⟨"c6", some 6, []⟩, ⟨"c4", some 4, []⟩]

/-! ## General lemmas about the stable descending sort -/

lemma perm_insertDesc {α : Type} (key : α → ℚ) (c : α) (l : List α) :
    (insertDesc key c l).Perm (c :: l) := by
  induction l with
  | nil => simp [insertDesc]
  | cons x xs ih =>
    unfold insertDesc
    split
    · exact (ih.cons x).trans (List.Perm.swap c x xs)
    · exact List.Perm.refl _

lemma pairwise_insertDesc {α : Type} (key : α → ℚ) {c : α} {l : List α}
    (h : l.Pairwise (fun a b => key b ≤ key a)) :
    (insertDesc key c l).Pairwise (fun a b => key b ≤ key a) := by
  induction l with
  | nil => simp [insertDesc]
  | cons x xs ih =>
    rcases List.pairwise_cons.mp h with ⟨hx, hxs⟩
    unfold insertDesc
    split
    · rename_i hlt
      refine List.pairwise_cons.mpr ⟨?_, ih hxs⟩
      intro y hy
      rcases List.mem_cons.mp ((perm_insertDesc key c xs).mem_iff.mp hy) with rfl | hy'
      · exact le_of_lt hlt
      · exact hx y hy'
    · rename_i hnlt
      refine List.pairwise_cons.mpr ⟨?_, h⟩
      intro y hy
      rcases List.mem_cons.mp hy with rfl | hy'
      · exact not_lt.mp hnlt
      · exact le_trans (hx y hy') (not_lt.mp hnlt)

lemma perm_insertionSortDesc {α : Type} (key : α → ℚ) (l : List α) :
    (insertionSortDesc key l).Perm l := by
  induction l with
  | nil => exact List.Perm.refl _
  | cons c cs ih =>
    exact (perm_insertDesc key c (insertionSortDesc key cs)).trans (ih.cons c)

lemma pairwise_insertionSortDesc {α : Type} (key : α → ℚ) (l : List α) :
    (insertionSortDesc key l).Pairwise (fun a b => key b ≤ key a) := by
  induction l with
  | nil => simp [insertionSortDesc]
  | cons c cs ih => exact pairwise_insertDesc key ih

lemma perm_pySortDescCompetitors (l : List Competitor) :
    (pySortDescCompetitors l).Perm l :=
  perm_insertionSortDesc competitorKey l

lemma pairwise_pySortDescCompetitors (l : List Competitor) :
    (pySortDescCompetitors l).Pairwise (fun a b => competitorKey b ≤ competitorKey a) :=
  pairwise_insertionSortDesc competitorKey l

lemma insertionSortDesc_take_dominates {α : Type} (key : α → ℚ) (l : List α) (n : Nat)
    (hnd : (l.map key).Nodup) :
    ((insertionSortDesc key l).take n).Pairwise (fun x y => key y < key x) ∧
    (∀ x ∈ (insertionSortDesc key l).take n, x ∈ l) ∧
    (∀ y ∈ l, y ∉ (insertionSortDesc key l).take n →
      ∀ x ∈ (insertionSortDesc key l).take n, key y < key x) := by
  have perm := perm_insertionSortDesc key l
  have sorted := pairwise_insertionSortDesc key l
  have snd : ((insertionSortDesc key l).map key).Nodup :=
    ((perm.map key).nodup_iff).mpr hnd
  have hsplit := List.take_append_drop n (insertionSortDesc key l)
  refine ⟨?_, ?_, ?_⟩
  · have pw_t := List.Pairwise.sublist (List.take_sublist n _) sorted
    have nd_t : (((insertionSortDesc key l).take n).map key).Nodup :=
      List.Nodup.sublist ((List.take_sublist n _).map key) snd
    have pw_ne := List.pairwise_map.mp nd_t
    exact (pw_t.and pw_ne).imp (fun h => lt_of_le_of_ne h.1 (Ne.symm h.2))
  · intro x hx
    exact perm.subset ((List.take_sublist n _).subset hx)
  · intro y hy hyn x hx
    have hys : y ∈ insertionSortDesc key l := perm.mem_iff.mpr hy
    have hyd : y ∈ (insertionSortDesc key l).drop n := by
      rcases List.mem_append.mp (by rw [hsplit]; exact hys) with h | h
      · exact absurd h hyn
      · exact h
    have sorted' : ((insertionSortDesc key l).take n
        ++ (insertionSortDesc key l).drop n).Pairwise (fun a b => key b ≤ key a) := by
      rw [hsplit]; exact sorted
    have hle : key y ≤ key x := (List.pairwise_append.mp sorted').2.2 x hx y hyd
    have snd' : (((insertionSortDesc key l).take n
        ++ (insertionSortDesc key l).drop n).map key).Nodup := by
      rw [hsplit]; exact snd
    rw [List.map_append] at snd'
    have hdisj := (List.nodup_append.mp snd').2.2
    have hxk : key x ∈ ((insertionSortDesc key l).take n).map key :=
      List.mem_map_of_mem _ hx
    have hyk : key y ∈ ((insertionSortDesc key l).drop n).map key :=
      List.mem_map_of_mem _ hyd
    exact lt_of_le_of_ne hle (fun hEq => hdisj hxk (hEq ▸ hyk))

/-! ## Name-resolution helper -/

lemma resolvedCompanyName_eq_spec (domain : String) (a : ApolloData) (c : CoresignalData) :
    resolvedCompanyName domain a c = specCanonicalName domain a c := by
  unfold resolvedCompanyName specCanonicalName setCompanyNameFromData companyNameProp
  cases h1 : truthyStr a.organizationName <;>
    cases h2 : truthyStr c.company_name <;>
      cases h3 : truthyStr a.name <;>
        simp [h1, h2, h3]

/-! ## Claim theorems -/

/-- C2: for every combination of provider payloads, the canonical company
name in the research result equals the Apollo payload's `organization.name`
when present (non-empty), else CoreSignal's `company_name` when present, else
Apollo's top-level `name` when present, else the deterministic fallback
derived from the domain; in particular, for identifier "example.com" with no
name field in any payload, the result is the non-empty string "Example". -/
theorem c2_canonical_name_resolution {ε : Type} (domain : String) (a : ApolloData)
    (t : List TavilySearchResult) (c : CoresignalData) (llm : MultiSourcePrompt → String) :
    ((researchCompany (ε := ε) domain (.ok a) (fun _ => .ok t) (.ok c) llm).result.map
        ResearchBundle.company_name = .ok (specCanonicalName domain a c)) ∧
    (truthyStr a.organizationName = none → truthyStr c.company_name = none →
      truthyStr a.name = none →
      resolvedCompanyName "example.com" a c = "Example" ∧ "Example" ≠ "") := by
  constructor
  · have h := resolvedCompanyName_eq_spec domain a c
    unfold resolvedCompanyName at h
    simp [researchCompany, gather3, Except.map, h]
  · intro h1 h2 h3
    have h := resolvedCompanyName_eq_spec "example.com" a c
    unfold specCanonicalName at h
    rw [h1, h2, h3] at h
    exact ⟨h.trans (by decide), by decide⟩

/-- C2 witness: at the empty payloads the hypotheses hold and the canonical
name for "example.com" is "Example". -/
theorem c2_canonical_name_resolution_witness :
    (truthyStr (ApolloData.organizationName {}) = none ∧
     truthyStr (CoresignalData.company_name {}) = none ∧
     truthyStr (ApolloData.name {}) = none) ∧
    (resolvedCompanyName "example.com" {} {} = "Example" ∧ "Example" ≠ "") :=
  ⟨⟨rfl, rfl, rfl⟩,
   (c2_canonical_name_resolution (ε := Unit) "example.com" {} [] {} (fun _ => "")).2 rfl rfl rfl⟩

/-- C9: the Tavily customer-search query is built from the fallback display
name (domain with ".com" and "www." removed, then title-cased) for every
research request, never from a provider-supplied canonical name: the query is
fixed before the payloads are known, and in a concrete run where Apollo
supplies "Acme Corp" the query still says "Example" while the bundle's
canonical name is "Acme Corp". -/
theorem c9_tavily_query_from_fallback {ε : Type} (domain : String)
    (apolloFetch : Except ε ApolloData)
    (tavilyFetch : String → Except ε (List TavilySearchResult))
    (coresignalFetch : Except ε CoresignalData) (llm : MultiSourcePrompt → String) :
    ((researchCompany domain apolloFetch tavilyFetch coresignalFetch llm).tavilyQuery
      = "Who are the major/enterprise customers of "
          ++ pyTitle (pyReplace (pyReplace domain ".com" "") "www." "") ++ "?") ∧
    ((researchCompany (ε := Unit) "example.com" (.ok { organizationName := some "Acme Corp" })
        (fun _ => .ok []) (.ok {}) (fun _ => "")).tavilyQuery
      = "Who are the major/enterprise customers of Example?") ∧
    ((researchCompany (ε := Unit) "example.com" (.ok { organizationName := some "Acme Corp" })
        (fun _ => .ok []) (.ok {}) (fun _ => "")).result.map ResearchBundle.company_name
      = .ok "Acme Corp") := by
  refine ⟨?_, by decide, by decide⟩
  unfold researchCompany
  cases apolloFetch <;> cases tavilyFetch (researchQuery domain) <;>
    cases coresignalFetch <;> rfl

/-- C1: if any one of the three provider fetches fails, `research_company`
fails with that provider's error, the LLM synthesis is not invoked and no
partial bundle is returned; in general the synthesis call happens exactly
when the gather join succeeds and a full bundle is produced. -/
theorem c1_fanout_short_circuit {ε : Type} (domain : String) (a : ApolloData)
    (t : List TavilySearchResult) (c : CoresignalData) (e : ε)
    (llm : MultiSourcePrompt → String) :
    (researchCompany domain (.error e) (fun _ => .ok t) (.ok c) llm
      = ⟨.error e, false, customersQuery (fallbackDisplayName domain)⟩) ∧
    (researchCompany domain (.ok a) (fun _ => .error e) (.ok c) llm
      = ⟨.error e, false, customersQuery (fallbackDisplayName domain)⟩) ∧
    (researchCompany domain (.ok a) (fun _ => .ok t) (.error e) llm
      = ⟨.error e, false, customersQuery (fallbackDisplayName domain)⟩) ∧
    (∀ (apolloFetch : Except ε ApolloData)
       (tavilyFetch : String → Except ε (List TavilySearchResult))
       (coresignalFetch : Except ε CoresignalData),
      (researchCompany domain apolloFetch tavilyFetch coresignalFetch llm).synthesisCalled
        = (researchCompany domain apolloFetch tavilyFetch coresignalFetch llm).result.isOk) := by
  refine ⟨rfl, rfl, rfl, ?_⟩
  intro apolloFetch tavilyFetch coresignalFetch
  unfold researchCompany
  cases apolloFetch <;> cases tavilyFetch (researchQuery domain) <;>
    cases coresignalFetch <;> rfl

/-- C3: whenever an email address is supplied and the Google-Drive upload
succeeds, the multi-source handler responds with a JSON summary (never a file
stream) that embeds both sink outcomes: the drive upload result and the email
send result (the `email_sent` flag plus the `email_result` record computed by
the email block). -/
theorem c3_email_and_upload_json_response (email : String) (he : email ≠ "")
    (return_data : Bool) (upload_to_drive_folder_id : Option String) (fid : String)
    (hf : truthyStr upload_to_drive_folder_id = some fid)
    (env : ServiceEnv) (hd : env.google_drive_available = true)
    (m : DriveFileMeta) (emailConstruction : Except String Unit)
    (sendAttempt : Except String EmailOutcome)
    (company_name pdf_filename pdf_path : String) :
    ∃ s : JsonSummary,
      (multiSourceEndpointDelivery (some email) return_data true upload_to_drive_folder_id env
          (.ok (some m)) emailConstruction sendAttempt company_name pdf_filename pdf_path).1
        = .json s ∧
      s.google_drive = some { success := true, file_id := m.id, file_name := m.fname,
                              view_link := m.webViewLink, size := m.size } ∧
      s.email_result = computeEmailResult (some email) env.email_service_available
          emailConstruction env.email_configured sendAttempt ∧
      s.email_sent = some (emailSuccessOf (computeEmailResult (some email)
          env.email_service_available emailConstruction env.email_configured sendAttempt)) := by
  have ht : truthyStr (some email) = some email := by simp [truthyStr, he]
  refine ⟨{ message := "Multi-source research completed and PDF generated successfully"
            company_name := company_name
            pdf_filename := pdf_filename
            email_sent := some (emailSuccessOf (computeEmailResult (some email)
              env.email_service_available emailConstruction env.email_configured sendAttempt))
            google_drive := some { success := true, file_id := m.id, file_name := m.fname,
                                   view_link := m.webViewLink, size := m.size }
            email_result := computeEmailResult (some email) env.email_service_available
              emailConstruction env.email_configured sendAttempt
            raw_data_included := return_data }, ?_, rfl, rfl, rfl⟩
  simp [multiSourceEndpointDelivery, computeDriveResult, multiSourceDelivery, hd, hf, ht]

/-- C3 witness: a concrete request with an email address and a successful
upload gets the JSON summary with both sink outcomes. -/
theorem c3_email_and_upload_json_response_witness :
    (("user@example.com" : String) ≠ "" ∧
      truthyStr (some "folder1") = some "folder1" ∧
      (⟨true, true, true⟩ : ServiceEnv).google_drive_available = true) ∧
    (∃ s : JsonSummary,
      (multiSourceEndpointDelivery (some "user@example.com") false true (some "folder1")
          ⟨true, true, true⟩ (.ok (some {})) (.ok ()) (.ok ⟨true, none⟩)
          "Acme" "report.pdf" "/tmp/report.pdf").1
        = .json s ∧
      s.google_drive = some { success := true, file_id := DriveFileMeta.id {},
                              file_name := DriveFileMeta.fname {},
                              view_link := DriveFileMeta.webViewLink {},
                              size := DriveFileMeta.size {} } ∧
      s.email_result = computeEmailResult (some "user@example.com") true (.ok ()) true
          (.ok ⟨true, none⟩) ∧
      s.email_sent = some (emailSuccessOf (computeEmailResult (some "user@example.com") true
          (.ok ()) true (.ok ⟨true, none⟩)))) :=
  ⟨⟨by decide, rfl, rfl⟩,
    c3_email_and_upload_json_response "user@example.com" (by decide) false (some "folder1")
      "folder1" rfl ⟨true, true, true⟩ rfl {} (.ok ()) (.ok ⟨true, none⟩)
      "Acme" "report.pdf" "/tmp/report.pdf"⟩

/-- C5: the rendered PDF is deleted exactly when it was durably handed off —
the email was sent successfully or the drive upload succeeded; and when no
email address was supplied and the upload did not succeed, the handler
streams the artifact as the response and does not delete it. -/
theorem c5_artifact_deleted_iff_handed_off (email : Option String)
    (return_data upload_to_drive : Bool) (upload_to_drive_folder_id : Option String)
    (env : ServiceEnv) (uploadAttempt : Except String (Option DriveFileMeta))
    (emailConstruction : Except String Unit) (sendAttempt : Except String EmailOutcome)
    (company_name pdf_filename pdf_path : String) :
    ((multiSourceEndpointDelivery email return_data upload_to_drive upload_to_drive_folder_id
        env uploadAttempt emailConstruction sendAttempt company_name pdf_filename pdf_path).2
      = (emailSuccessOf (computeEmailResult email env.email_service_available emailConstruction
            env.email_configured sendAttempt)
         || driveSuccessOf (computeDriveResult upload_to_drive env.google_drive_available
            upload_to_drive_folder_id uploadAttempt))) ∧
    (truthyStr email = none →
      driveSuccessOf (computeDriveResult upload_to_drive env.google_drive_available
          upload_to_drive_folder_id uploadAttempt) = false →
      ∃ hdr,
        (multiSourceEndpointDelivery email return_data upload_to_drive upload_to_drive_folder_id
            env uploadAttempt emailConstruction sendAttempt company_name pdf_filename pdf_path)
          = (.fileStream pdf_path pdf_filename hdr, false)) := by
  constructor
  · unfold multiSourceEndpointDelivery multiSourceDelivery
    cases h : truthyStr email with
    | some e => simp [h]
    | none =>
      have hm : computeEmailResult email env.email_service_available emailConstruction
          env.email_configured sendAttempt = none := by
        unfold computeEmailResult
        rw [h]
      simp only [hm]
      cases hd : driveSuccessOf (computeDriveResult upload_to_drive env.google_drive_available
          upload_to_drive_folder_id uploadAttempt) <;> simp [hd, emailSuccessOf]
  · intro h hd
    refine ⟨(computeDriveResult upload_to_drive env.google_drive_available
        upload_to_drive_folder_id uploadAttempt).bind
          (fun d => if d.success then none else some (d.error.getD "Unknown error")), ?_⟩
    unfold multiSourceEndpointDelivery multiSourceDelivery
    rw [h]
    simp [hd]

/-- C5 witness: with no email and no upload requested, the concrete response
streams the PDF and the deletion flag is false. -/
theorem c5_artifact_deleted_iff_handed_off_witness :
    (truthyStr none = none ∧
      driveSuccessOf (computeDriveResult false true none (.ok none)) = false) ∧
    ((multiSourceEndpointDelivery none false false none ⟨true, true, true⟩ (.ok none)
        (.ok ()) (.ok ⟨true, none⟩) "Acme" "report.pdf" "/tmp/report.pdf").2
      = (emailSuccessOf (computeEmailResult none true (.ok ()) true (.ok ⟨true, none⟩))
         || driveSuccessOf (computeDriveResult false true none (.ok none)))) ∧
    (∃ hdr,
      (multiSourceEndpointDelivery none false false none ⟨true, true, true⟩ (.ok none)
          (.ok ()) (.ok ⟨true, none⟩) "Acme" "report.pdf" "/tmp/report.pdf")
        = (.fileStream "/tmp/report.pdf" "report.pdf" hdr, false)) :=
  ⟨⟨rfl, rfl⟩,
    (c5_artifact_deleted_iff_handed_off none false false none ⟨true, true, true⟩ (.ok none)
      (.ok ()) (.ok ⟨true, none⟩) "Acme" "report.pdf" "/tmp/report.pdf").1,
    (c5_artifact_deleted_iff_handed_off none false false none ⟨true, true, true⟩ (.ok none)
      (.ok ()) (.ok ⟨true, none⟩) "Acme" "report.pdf" "/tmp/report.pdf").2 rfl rfl⟩

/-- C4 counterexample: the web-search fetch `get_major_customers_async` has no
cache lookup at all, so even with every provider cache warm it performs a
network call — refuting the claim that a warm cache suppresses network calls
for each of the three providers. -/
theorem c4_counterexample :
    (getMajorCustomersAsync "Example" []).networkCalled = true := rfl

/-- C4 (amended): a valid cached response file short-circuits the network for
the Apollo and CoreSignal clients — the cached payload is returned, nothing
is fetched and the cache is unchanged — but the Tavily customer search has no
cache and performs a network call on every invocation. -/
theorem c4_warm_cache_no_network {α : Type} (v : α) (http : HttpResponse α) :
    (apolloOrganizationEnrichment (some (.ok v)) http = ⟨.ok v, false, some (.ok v)⟩) ∧
    (coresignalMultiSourceEnrich (some (.ok v)) http = ⟨.ok v, false, some (.ok v)⟩) ∧
    (∀ (company_name : String) (searchResults : List (Option TavilySearchResult)),
      (getMajorCustomersAsync company_name searchResults).networkCalled = true) :=
  ⟨rfl, rfl, fun _ _ => rfl⟩

/-- C7 counterexample: on a cold cache the Apollo client returns the JSON body
of an HTTP 401 response as a normal result — and caches it — because the code
never inspects the status code; this refutes the claim that every provider
fetch fails on a non-success status. -/
theorem c7_counterexample :
    apolloOrganizationEnrichment (α := ApolloData) none
        ⟨401, .ok { rest := [("error", "invalid api key")] }⟩
      = ⟨.ok { rest := [("error", "invalid api key")] }, true,
         some (.ok { rest := [("error", "invalid api key")] })⟩ := rfl

/-- C7 (amended): on a cold cache the CoreSignal client fails with an
upstream error on any 4xx/5xx status (before writing the cache) and on a
malformed body; the Apollo client fails only on a malformed body and returns
the parsed body as a normal result regardless of the HTTP status. -/
theorem c7_upstream_error_behaviour {α : Type} (cache : Option (Except Unit α))
    (http : HttpResponse α) (hcold : ∀ v, cache ≠ some (.ok v)) :
    (400 ≤ http.status →
      coresignalMultiSourceEnrich cache http
        = ⟨.error (.httpStatus http.status), true, cache⟩) ∧
    (http.status < 400 → http.body = .error () →
      coresignalMultiSourceEnrich cache http = ⟨.error .malformedBody, true, cache⟩) ∧
    (http.body = .error () →
      apolloOrganizationEnrichment cache http = ⟨.error .malformedBody, true, cache⟩) ∧
    (∀ v, http.body = .ok v →
      apolloOrganizationEnrichment cache http = ⟨.ok v, true, some (.ok v)⟩) := by
  rcases hcache : cache with _ | ex
  · refine ⟨?_, ?_, ?_, ?_⟩
    · intro hs
      unfold coresignalMultiSourceEnrich
      rw [if_pos hs]
    · intro hs hb
      unfold coresignalMultiSourceEnrich
      rw [if_neg (by omega), hb]
    · intro hb
      unfold apolloOrganizationEnrichment
      rw [hb]
    · intro v hb
      unfold apolloOrganizationEnrichment
      rw [hb]
  · cases ex with
    | ok v => exact absurd hcache (hcold v)
    | error u =>
      refine ⟨?_, ?_, ?_, ?_⟩
      · intro hs
        unfold coresignalMultiSourceEnrich
        rw [if_pos hs]
      · intro hs hb
        unfold coresignalMultiSourceEnrich
        rw [if_neg (by omega), hb]
      · intro hb
        unfold apolloOrganizationEnrichment
        rw [hb]
      · intro v hb
        unfold apolloOrganizationEnrichment
        rw [hb]

/-- C7 amended witness: with no cache file and a 500 response whose body does
not parse, the CoreSignal client fails with the status error. -/
theorem c7_upstream_error_behaviour_witness :
    (∀ v : Unit, (none : Option (Except Unit Unit)) ≠ some (.ok v)) ∧
    (400 ≤ (500 : Nat) →
      coresignalMultiSourceEnrich (α := Unit) none ⟨500, .error ()⟩
        = ⟨.error (.httpStatus 500), true, none⟩) :=
  ⟨(fun v h => Option.noConfusion h),
    (c7_upstream_error_behaviour (α := Unit) none ⟨500, .error ()⟩
      (fun v h => Option.noConfusion h)).1⟩

/-- C10: when a provider cache file exists but is unreadable or holds invalid
JSON, the fetch does not fail: both cached clients fall through to a fresh
HTTP call, return its parsed body and overwrite the cache file with it. -/
theorem c10_invalid_cache_refetch {α : Type} (v : α) (status : Nat) (hs : status < 400) :
    (apolloOrganizationEnrichment (some (.error ())) ⟨status, .ok v⟩
      = ⟨.ok v, true, some (.ok v)⟩) ∧
    (coresignalMultiSourceEnrich (some (.error ())) ⟨status, .ok v⟩
      = ⟨.ok v, true, some (.ok v)⟩) := by
  refine ⟨rfl, ?_⟩
  unfold coresignalMultiSourceEnrich
  have hns : ¬ 400 ≤ (HttpResponse.mk status (Except.ok v) : HttpResponse α).status := by
    simpa using (by omega : ¬ 400 ≤ status)
  rw [if_neg hns]

/-- C10 witness: a concrete corrupt cache with a successful 200 response is
refetched and overwritten. -/
theorem c10_invalid_cache_refetch_witness :
    ((200 : Nat) < 400) ∧
    ((apolloOrganizationEnrichment (α := Nat) (some (.error ())) ⟨200, .ok 7⟩
        = ⟨.ok 7, true, some (.ok 7)⟩) ∧
     (coresignalMultiSourceEnrich (α := Nat) (some (.error ())) ⟨200, .ok 7⟩
        = ⟨.ok 7, true, some (.ok 7)⟩)) :=
  ⟨by decide, c10_invalid_cache_refetch 7 200 (by decide)⟩

/-- C8 counterexample: the CoreSignal payload bundled under `raw_data` is not
identical to the fetched payload — the in-place `competitors.sort` inside
`generate_llm_company_report` reorders the competitor list of the very dict
that is later bundled, shown here on a payload whose two competitors arrive
in ascending score order. -/
theorem c8_counterexample :
    ((researchCompany (ε := Unit) "example.com" (.ok {}) (fun _ => .ok [])
        (.ok { competitors := [⟨"low", some 1, []⟩, ⟨"high", some 2, []⟩] })
        (fun _ => "")).result.map ResearchBundle.coresignal_data)
      ≠ .ok { competitors := [⟨"low", some 1, []⟩, ⟨"high", some 2, []⟩] } := by
  decide

/-- C8 (amended): the bundle returned by `research_company` keeps the Apollo
payload and the Tavily results exactly as fetched, and keeps every field of
the CoreSignal payload except `competitors`, which is re-sorted in place by
descending similarity score before bundling — same elements and same length,
but not necessarily the original order. -/
theorem c8_bundle_mutation {ε : Type} (domain : String) (a : ApolloData)
    (t : List TavilySearchResult) (c : CoresignalData)
    (llm : MultiSourcePrompt → String) (b : ResearchBundle)
    (h : (researchCompany (ε := ε) domain (.ok a) (fun _ => .ok t) (.ok c) llm).result
      = .ok b) :
    b.apollo_data = a ∧ b.tavily_customers = t ∧
    b.coresignal_data = { c with competitors := pySortDescCompetitors c.competitors } ∧
    b.coresignal_data.competitors.Perm c.competitors ∧
    b.coresignal_data.competitors.length = c.competitors.length ∧
    b.coresignal_data.company_name = c.company_name ∧
    b.coresignal_data.company_updates = c.company_updates ∧
    b.coresignal_data.rest = c.rest := by
  simp only [researchCompany, gather3, Except.ok.injEq] at h
  subst h
  refine ⟨rfl, rfl, rfl, ?_, ?_, rfl, rfl, rfl⟩
  · exact perm_pySortDescCompetitors c.competitors
  · exact (perm_pySortDescCompetitors c.competitors).length_eq

/-- C8 amended witness: a concrete successful run, with the bundle computed
explicitly. -/
theorem c8_bundle_mutation_witness :
    ((researchCompany (ε := Unit) "example.com" (.ok {}) (fun _ => .ok [])
        (.ok { competitors := [⟨"low", some 1, []⟩, ⟨"high", some 2, []⟩] })
        (fun _ => "r")).result
      = .ok ⟨"Example", "example.com", "r", {}, [],
             { competitors := [⟨"high", some 2, []⟩, ⟨"low", some 1, []⟩] }⟩) ∧
    ((⟨"Example", "example.com", "r", {}, [],
        { competitors := [⟨"high", some 2, []⟩, ⟨"low", some 1, []⟩] }⟩
          : ResearchBundle).apollo_data = {} ∧
     (⟨"Example", "example.com", "r", {}, [],
        { competitors := [⟨"high", some 2, []⟩, ⟨"low", some 1, []⟩] }⟩
          : ResearchBundle).tavily_customers = ([] : List TavilySearchResult) ∧
     (⟨"Example", "example.com", "r", {}, [],
        { competitors := [⟨"high", some 2, []⟩, ⟨"low", some 1, []⟩] }⟩
          : ResearchBundle).coresignal_data
       = { (({ competitors := [⟨"low", some 1, []⟩, ⟨"high", some 2, []⟩] }) : CoresignalData)
            with competitors :=
              pySortDescCompetitors [⟨"low", some 1, []⟩, ⟨"high", some 2, []⟩] } ∧
     List.Perm [(⟨"high", some 2, []⟩ : Competitor), ⟨"low", some 1, []⟩]
       [⟨"low", some 1, []⟩, ⟨"high", some 2, []⟩] ∧
     ([(⟨"high", some 2, []⟩ : Competitor), ⟨"low", some 1, []⟩].length
       = [(⟨"low", some 1, []⟩ : Competitor), ⟨"high", some 2, []⟩].length) ∧
     ((none : Option String) = none) ∧
     (([] : List CompanyUpdate) = []) ∧
     (([] : List (String × String)) = [])) := by
  refine ⟨by decide, ?_⟩
  exact c8_bundle_mutation (ε := Unit) "example.com" {} []
    { competitors := [⟨"low", some 1, []⟩, ⟨"high", some 2, []⟩] } (fun _ => "r")
    ⟨"Example", "example.com", "r", {}, [],
      { competitors := [⟨"high", some 2, []⟩, ⟨"low", some 1, []⟩] }⟩
    (by decide)

/-- C6 counterexample: with eight distinct-score competitors, the prompt sent
to the LLM does not contain only the top 5 — the CoreSignal-path prompt
embeds the full payload dump with all eight competitors (including the
lowest-scored one), and the multi-source-path prompt likewise embeds the full
payload while its computed top-5 list is never interpolated at all. -/
theorem c6_counterexample :
    ((generateMarkdownReportWithLlm (fun _ => "") "https://www.jrni.com" "schema"
        { competitors := eightCompetitors }).2.2.coresignal_payload.competitors.length = 8) ∧
    ((⟨"c1", some 1, []⟩ : Competitor) ∈
      (generateMarkdownReportWithLlm (fun _ => "") "https://www.jrni.com" "schema"
        { competitors := eightCompetitors }).2.2.coresignal_payload.competitors) ∧
    ((generateLlmCompanyReport (fun _ => "") "Example" {}
        { competitors := eightCompetitors } []).2.2.coresignal_payload.competitors.length = 8) := by
  refine ⟨by decide, by decide, by decide⟩

/-- C6 (amended): the competitor list is sorted in place by descending
similarity score (missing score treated as zero) and truncated to the top 5;
in the CoreSignal report path the prompt's dedicated competitors field is
exactly the top 5 by descending score — length 5, strictly descending, drawn
from the payload, and dominating every omitted competitor — but the prompt
additionally embeds the full sorted payload with all competitors, and the
multi-source researcher path embeds only the full sorted payload (its
truncated list is not part of the prompt). -/
theorem c6_top5_competitors (llm : CoresignalPrompt → String) (website schema : String)
    (resp : CoresignalData) (hlen : resp.competitors.length = 8)
    (hnd : (resp.competitors.map competitorKey).Nodup) :
    ((generateMarkdownReportWithLlm llm website schema resp).2.2.competitors
        = (pySortDescCompetitors resp.competitors).take 5) ∧
    (((pySortDescCompetitors resp.competitors).take 5).length = 5) ∧
    (((pySortDescCompetitors resp.competitors).take 5).Pairwise
        (fun x y => competitorKey y < competitorKey x)) ∧
    (∀ x ∈ (pySortDescCompetitors resp.competitors).take 5, x ∈ resp.competitors) ∧
    (∀ y ∈ resp.competitors, y ∉ (pySortDescCompetitors resp.competitors).take 5 →
      ∀ x ∈ (pySortDescCompetitors resp.competitors).take 5,
        competitorKey y < competitorKey x) ∧
    ((generateMarkdownReportWithLlm llm website
        schema resp).2.2.coresignal_payload.competitors.length
      = resp.competitors.length) ∧
    (∀ (llm2 : MultiSourcePrompt → String) (nm : String) (a : ApolloData)
        (t : List TavilySearchResult),
      (generateLlmCompanyReport llm2 nm a resp t).2.2.coresignal_payload.competitors
        = pySortDescCompetitors resp.competitors) := by
  have hdom := insertionSortDesc_take_dominates competitorKey resp.competitors 5 hnd
  have hslen : (pySortDescCompetitors resp.competitors).length = 8 :=
    (perm_pySortDescCompetitors resp.competitors).length_eq.trans hlen
  refine ⟨rfl, ?_, hdom.1, hdom.2.1, hdom.2.2,
    (perm_pySortDescCompetitors resp.competitors).length_eq, fun _ _ _ _ => rfl⟩
  rw [List.length_take, hslen]
  decide

/-- C6 amended witness: the eight-competitor example satisfies the hypotheses
and yields the top-5 field [c8, c7, c6, c5, c4] alongside the full sorted
payload. -/
theorem c6_top5_competitors_witness :
    (eightCompetitors.length = 8 ∧ (eightCompetitors.map competitorKey).Nodup) ∧
    (((generateMarkdownReportWithLlm (fun _ => "") "https://www.jrni.com" "schema"
          { competitors := eightCompetitors }).2.2.competitors
        = (pySortDescCompetitors eightCompetitors).take 5) ∧
     (((pySortDescCompetitors eightCompetitors).take 5).length = 5) ∧
     (((pySortDescCompetitors eightCompetitors).take 5).Pairwise
         (fun x y => competitorKey y < competitorKey x)) ∧
     (∀ x ∈ (pySortDescCompetitors eightCompetitors).take 5, x ∈ eightCompetitors) ∧
     (∀ y ∈ eightCompetitors, y ∉ (pySortDescCompetitors eightCompetitors).take 5 →
       ∀ x ∈ (pySortDescCompetitors eightCompetitors).take 5,
         competitorKey y < competitorKey x) ∧
     ((generateMarkdownReportWithLlm (fun _ => "") "https://www.jrni.com" "schema"
          { competitors := eightCompetitors }).2.2.coresignal_payload.competitors.length
       = eightCompetitors.length) ∧
     (∀ (llm2 : MultiSourcePrompt → String) (nm : String) (a : ApolloData)
         (t : List TavilySearchResult),
       (generateLlmCompanyReport llm2 nm a { competitors := eightCompetitors } t).2.2.coresignal_payload.competitors
         = pySortDescCompetitors eightCompetitors)) := by
  refine ⟨⟨by decide, by decide⟩, ?_⟩
  exact c6_top5_competitors (fun _ => "") "https://www.jrni.com" "schema"
    { competitors := eightCompetitors } (by decide) (by decide)
